import Mathlib

/-!
Shallow embedding of the mock emission-data generator and the
threshold/alert checks of the NSEA vehicle-emission monitoring server.

Sources embedded:
* the mock generator section of `src/server/_core/supabase.ts`
  (`EMISSION_BASELINES`, `getVehicleProfile`, `generateMockEmissionReading`
  with its inner `generateValue`, `generateHistoricalData`,
  `resetVehicleProfile`);
* the per-gas threshold checks of the `emissions.ingest` and
  `emissions.generateMock` procedures in `src/server/routers.ts`.

Modelling conventions: JavaScript numbers are rationals; `Math.random()`
draws are an explicit stream of rationals consumed left to right; the
module-level `Map` of vehicle profiles is a function from vehicle ids to
optional profiles; `Math.round` is `fun y => Int.floor (y + 1/2)`.
-/

namespace NSEA

/-- EmissionBaseline: four gas fields, used both for baselines and readings. -/
structure EmissionBaseline where
  co2 : ℚ
  co : ℚ
  nox : ℚ
  pmLevel : ℚ
  deriving DecidableEq

/-- Trend: the four trend classifications of a vehicle profile. -/
inductive Trend where
  | stable
  | increasing
  | decreasing
  | volatile
  deriving DecidableEq

/-- VehicleProfile: per-vehicle simulation state kept in the profile store. -/
structure VehicleProfile where
  vehicleId : ℤ
  baseline : EmissionBaseline
  lastReading : Option EmissionBaseline
  trend : Trend
  volatility : ℚ
  deriving DecidableEq

/-- Rng: a stream of rationals modelling successive `Math.random()` draws. -/
structure Rng where
  seq : ℕ → ℚ
  idx : ℕ

/-- Rng.next consumes one draw from the stream. -/
def Rng.next (g : Rng) : ℚ × Rng := (g.seq g.idx, ⟨g.seq, g.idx + 1⟩)

/-- Rng.Valid: every draw of the stream lies in the interval of `Math.random()`. -/
def Rng.Valid (g : Rng) : Prop := ∀ n, 0 ≤ g.seq n ∧ g.seq n < 1

/-- SimState: the module-level `vehicleProfiles` map together with the
random stream. -/
structure SimState where
  profiles : ℤ → Option VehicleProfile
  rng : Rng

/-- EMISSION_BASELINES: the own properties of the fixed fuel-type object
literal of the source; a miss of the own properties is `none` (the
inherited members of the prototype chain are handled by
`jsLookupBaseline`). -/
def EMISSION_BASELINES : String → Option EmissionBaseline
  | "petrol" => some ⟨450, 8, 35, 25⟩
  | "diesel" => some ⟨550, 12, 45, 40⟩
  | "hybrid" => some ⟨300, 5, 20, 15⟩
  | "electric" => some ⟨0, 0, 0, 5⟩
  | "cng" => some ⟨400, 6, 25, 20⟩
  | _ => none

/-- toLowerAscii models JavaScript `toLowerCase` on the ASCII fuel-type
keys: it lowers every character of the string. -/
def toLowerAscii (s : String) : String := ⟨s.data.map Char.toLower⟩

/-- protoInherited recognises the keys at which a bracket lookup on the
baselines object literal resolves to a truthy member inherited from
`Object.prototype` instead of missing: of those members, exactly
`constructor` and `__proto__` have all-lowercase names and are therefore
reachable through `toLowerCase`. -/
def protoInherited (key : String) : Bool :=
  key = "constructor" || key = "__proto__"

/-- JsBaselineResult is the value of
`EMISSION_BASELINES[fuelType.toLowerCase()] || EMISSION_BASELINES.petrol`:
either an EmissionBaseline (an own table entry, or the petrol fallback),
or the truthy object inherited from `Object.prototype` — whose gas
fields are all `undefined` — for which no fallback happens. -/
inductive JsBaselineResult where
  | baseline (b : EmissionBaseline)
  | inheritedObject
  deriving DecidableEq

/-- jsLookupBaseline embeds the source lookup including the prototype
chain: an own property wins; otherwise an all-lowercase inherited key of
`Object.prototype` yields the truthy inherited object (the `||` fallback
does not fire); otherwise the lookup is `undefined` and the petrol
fallback applies. -/
def jsLookupBaseline (fuelType : String) : JsBaselineResult :=
  match EMISSION_BASELINES (toLowerAscii fuelType) with
  | some b => .baseline b
  | none =>
      if protoInherited (toLowerAscii fuelType) then .inheritedObject
      else .baseline ⟨450, 8, 35, 25⟩

/-- lookupBaseline is the baseline stored at profile creation, embedding
`EMISSION_BASELINES[fuelType.toLowerCase()] || EMISSION_BASELINES.petrol`
on the fuel types whose lowercase form is not an inherited key of
`Object.prototype`; on those two inherited keys the source stores the
inherited object instead (see `jsLookupBaseline`). -/
def lookupBaseline (fuelType : String) : EmissionBaseline :=
  (EMISSION_BASELINES (toLowerAscii fuelType)).getD ⟨450, 8, 35, 25⟩

/-- trendOfDraw embeds `trends[Math.floor(Math.random() * trends.length)]`
for the four-element trends array. -/
def trendOfDraw (r : ℚ) : Trend :=
  match (⌊r * 4⌋ : ℤ).toNat with
  | 0 => .stable
  | 1 => .increasing
  | 2 => .decreasing
  | _ => .volatile

/-- getVehicleProfile embeds the getter/creator of the profile store:
on a miss it draws a trend, then a volatility in `[0.1, 0.3)`, stores the
profile (with `lastReading` initialised to a copy of the baseline, exactly
as the source does) and returns it. -/
def getVehicleProfile (vehicleId : ℤ) (fuelType : String) (s : SimState) :
    VehicleProfile × SimState :=
  match s.profiles vehicleId with
  | some p => (p, s)
  | none =>
      let baseline := lookupBaseline fuelType
      let (r1, g1) := s.rng.next
      let trend := trendOfDraw r1
      let (r2, g2) := g1.next
      let volatility := 1/10 + r2 * (2/10)
      let p : VehicleProfile :=
        { vehicleId := vehicleId, baseline := baseline,
          lastReading := some baseline, trend := trend, volatility := volatility }
      (p, { profiles := Function.update s.profiles vehicleId (some p), rng := g2 })

/-- roundTo1 embeds `Math.round(newValue * 10) / 10`; JavaScript
`Math.round y` is `Int.floor (y + 1/2)`. -/
def roundTo1 (x : ℚ) : ℚ := (⌊x * 10 + 1/2⌋ : ℤ) / 10

/-- trendMultiplier embeds the `switch (trend)` block of
`generateMockEmissionReading`, applied to the single draw of the taken
branch. -/
def trendMultiplier (t : Trend) (r : ℚ) : ℚ :=
  match t with
  | .increasing => 1 + r * (5/100)
  | .decreasing => 1 - r * (5/100)
  | .volatile => 85/100 + r * (30/100)
  | .stable => 95/100 + r * (10/100)

/-- generateValue embeds the inner closure of `generateMockEmissionReading`;
`volatility` and `trendMultiplier` are the captured variables, `r` the
`Math.random()` draw it consumes. -/
def generateValue (volatility trendMultiplier : ℚ) (baseValue : ℚ)
    (lastValue : Option ℚ) (minVariation maxVariation : ℚ) (r : ℚ) : ℚ :=
  let reference := lastValue.getD baseValue
  let variation := minVariation + r * (maxVariation - minVariation)
  let variationAmount := reference * volatility * variation
  let newValue := (reference + variationAmount) * trendMultiplier
  let clamped :=
    if baseValue = 0 then max 0 (min newValue 10)
    else max (baseValue * (2/10)) (min newValue (baseValue * 2))
  roundTo1 clamped

/-- generateMockEmissionReading embeds the exported generator: fetch or
create the profile, draw the trend multiplier, draw the shared correlation
factor, generate the four gas values in order, store them as the new
`lastReading` of the profile, and return them. -/
def generateMockEmissionReading (vehicleId : ℤ) (fuelType : String)
    (s : SimState) : EmissionBaseline × SimState :=
  let (profile, s1) := getVehicleProfile vehicleId fuelType s
  let (rTrend, g1) := s1.rng.next
  let tm := trendMultiplier profile.trend rTrend
  let (rCorr, g2) := g1.next
  let correlationFactor := 7/10 + rCorr * (3/10)
  let (r1, g3) := g2.next
  let co2 := generateValue profile.volatility tm profile.baseline.co2
    (profile.lastReading.map EmissionBaseline.co2)
    (-(2/10) * correlationFactor) ((2/10) * correlationFactor) r1
  let (r2, g4) := g3.next
  let co := generateValue profile.volatility tm profile.baseline.co
    (profile.lastReading.map EmissionBaseline.co)
    (-(25/100) * correlationFactor) ((25/100) * correlationFactor) r2
  let (r3, g5) := g4.next
  let nox := generateValue profile.volatility tm profile.baseline.nox
    (profile.lastReading.map EmissionBaseline.nox)
    (-(2/10) * correlationFactor) ((2/10) * correlationFactor) r3
  let (r4, g6) := g5.next
  let pmLevel := generateValue profile.volatility tm profile.baseline.pmLevel
    (profile.lastReading.map EmissionBaseline.pmLevel)
    (-(3/10) * correlationFactor) ((3/10) * correlationFactor) r4
  let reading : EmissionBaseline := ⟨co2, co, nox, pmLevel⟩
  let updated := { profile with lastReading := some reading }
  (reading,
    { profiles := Function.update s1.profiles vehicleId (some updated),
      rng := g6 })

/-- resetVehicleProfile embeds `vehicleProfiles.delete(vehicleId)`. -/
def resetVehicleProfile (vehicleId : ℤ) (s : SimState) : SimState :=
  { s with profiles := Function.update s.profiles vehicleId none }

/-- genLoop embeds the `for (let i = 0; i <= points; i++)` loop of
`generateHistoricalData`, run a given number of iterations. -/
def genLoop (vehicleId : ℤ) (fuelType : String) :
    ℕ → SimState → List EmissionBaseline × SimState
  | 0, s => ([], s)
  | n + 1, s =>
      let (reading, s1) := generateMockEmissionReading vehicleId fuelType s
      let (rest, s2) := genLoop vehicleId fuelType n s1
      (reading :: rest, s2)

/-- generateHistoricalData embeds the exported backfill function: compute
`points = Math.floor(hoursBack * 60 / intervalMinutes)`, reset the
profile of the vehicle, re-create it, then generate `points + 1` readings. -/
def generateHistoricalData (vehicleId : ℤ) (fuelType : String)
    (hoursBack intervalMinutes : ℚ) (s : SimState) :
    List EmissionBaseline × SimState :=
  let points : ℤ := ⌊hoursBack * 60 / intervalMinutes⌋
  let s0 := resetVehicleProfile vehicleId s
  let (_, s1) := getVehicleProfile vehicleId fuelType s0
  genLoop vehicleId fuelType (points + 1).toNat s1

/-- GasType: the four gas kinds used by the alert checks in
`src/server/routers.ts`. -/
inductive GasType where
  | co2
  | co
  | nox
  | pm
  deriving DecidableEq

/-- AlertEntry: the data passed to `createAlert` for one exceeded gas. -/
structure AlertEntry where
  gasType : GasType
  measuredValue : ℚ
  thresholdValue : ℚ
  deriving DecidableEq

/-- threshold: the fixed thresholds object
`{ co2: 1000, co: 50, nox: 100, pmLevel: 100 }` of `src/server/routers.ts`. -/
def threshold : GasType → ℚ
  | .co2 => 1000
  | .co => 50
  | .nox => 100
  | .pm => 100

/-- gasAlert embeds one `if (value && value > thresholds.gas) createAlert`
block; JavaScript truthiness of a present number is `value ≠ 0`. -/
def gasAlert (g : GasType) (v : Option ℚ) (thr : ℚ) : List AlertEntry :=
  match v with
  | none => []
  | some x => if x ≠ 0 ∧ thr < x then [⟨g, x, thr⟩] else []

/-- evaluateAlerts embeds the four sequential threshold checks run after
an ingested or generated reading, in source order. -/
def evaluateAlerts (co2 co nox pmLevel : Option ℚ) : List AlertEntry :=
  gasAlert .co2 co2 (threshold .co2) ++ gasAlert .co co (threshold .co) ++
  gasAlert .nox nox (threshold .nox) ++ gasAlert .pm pmLevel (threshold .pm)

/-- gasValue selects the per-gas field of an (optional-valued) reading. -/
def gasValue (co2 co nox pmLevel : Option ℚ) : GasType → Option ℚ
  | .co2 => co2
  | .co => co
  | .nox => nox
  | .pm => pmLevel

/-- state0: an initial simulation state with an empty profile store and a
constant draw stream, used to instantiate theorems at concrete inputs. -/
def state0 : SimState := ⟨fun _ => none, ⟨fun _ => 1/2, 0⟩⟩

/-- generateFrom restates the body of `generateMockEmissionReading` as a
function of the fetched profile and the post-fetch state, with the six
random draws written out explicitly. -/
def generateFrom (vehicleId : ℤ) (p : VehicleProfile) (s1 : SimState) :
    EmissionBaseline × SimState :=
  let g := s1.rng
  let tm := trendMultiplier p.trend (g.seq g.idx)
  let c := 7/10 + g.seq (g.idx + 1) * (3/10)
  let reading : EmissionBaseline :=
    ⟨generateValue p.volatility tm p.baseline.co2
       (p.lastReading.map EmissionBaseline.co2)
       (-(2/10) * c) ((2/10) * c) (g.seq (g.idx + 2)),
     generateValue p.volatility tm p.baseline.co
       (p.lastReading.map EmissionBaseline.co)
       (-(25/100) * c) ((25/100) * c) (g.seq (g.idx + 3)),
     generateValue p.volatility tm p.baseline.nox
       (p.lastReading.map EmissionBaseline.nox)
       (-(2/10) * c) ((2/10) * c) (g.seq (g.idx + 4)),
     generateValue p.volatility tm p.baseline.pmLevel
       (p.lastReading.map EmissionBaseline.pmLevel)
       (-(3/10) * c) ((3/10) * c) (g.seq (g.idx + 5))⟩
  (reading,
    { profiles := Function.update s1.profiles vehicleId
        (some { p with lastReading := some reading }),
      rng := ⟨g.seq, g.idx + 6⟩ })

/-- drawAt reads the draw stream of a state at a given offset from the
current position. -/
def drawAt (s : SimState) (k : ℕ) : ℚ := s.rng.seq (s.rng.idx + k)

/-- specGasValue is the per-gas value exactly as the specification words
it: the reference is the last reading when present and the baseline
otherwise; a draw is taken uniformly within the variation bounds of the gas
scaled by the shared correlation factor; the variation amount
`reference * volatility * variation` is added to the reference; the sum
is multiplied by the trend multiplier, clamped, and rounded to one
decimal place. -/
def specGasValue (baselineValue : ℚ) (lastValue : Option ℚ)
    (volatility trendMult corr bound r : ℚ) : ℚ :=
  let reference := lastValue.getD baselineValue
  let lo := -bound * corr
  let hi := bound * corr
  let variation := lo + r * (hi - lo)
  let value := (reference + reference * volatility * variation) * trendMult
  let clamped :=
    if baselineValue = 0 then max 0 (min value 10)
    else max (baselineValue * (2/10)) (min value (baselineValue * 2))
  roundTo1 clamped

/-- gasClampOk states the clamping interval of one gas: values from a
strictly positive baseline lie in `[baseline*0.2, baseline*2]` and values
from a zero baseline lie in `[0, 10]`. -/
def gasClampOk (b x : ℚ) : Prop :=
  (0 < b → b * (2/10) ≤ x ∧ x ≤ b * 2) ∧ (b = 0 → 0 ≤ x ∧ x ≤ 10)

/-- NatBaseline says every gas entry of a baseline is a natural number,
as all entries of the fuel-type table are. -/
def NatBaseline (b : EmissionBaseline) : Prop :=
  (∃ n : ℕ, b.co2 = (n : ℚ)) ∧ (∃ n : ℕ, b.co = (n : ℚ)) ∧
  (∃ n : ℕ, b.nox = (n : ℚ)) ∧ (∃ n : ℕ, b.pmLevel = (n : ℚ))

/-- tmLo gives the lower end of the trend-multiplier interval stated in
the specification for each trend. -/
def tmLo : Trend → ℚ
  | .stable => 95/100
  | .increasing => 1
  | .decreasing => 95/100
  | .volatile => 85/100

/-- tmHi gives the upper end of the trend-multiplier interval stated in
the specification for each trend. -/
def tmHi : Trend → ℚ
  | .stable => 105/100
  | .increasing => 105/100
  | .decreasing => 1
  | .volatile => 115/100

/-- SimOp enumerates the operations of the generator module that touch
the profile store. -/
inductive SimOp where
  | getOrCreate (vehicleId : ℤ) (fuelType : String)
  | generate (vehicleId : ℤ) (fuelType : String)
  | history (vehicleId : ℤ) (fuelType : String) (hoursBack intervalMinutes : ℚ)
  | reset (vehicleId : ℤ)

/-- SimOp.apply runs one operation for its state effect. -/
def SimOp.apply : SimOp → SimState → SimState
  | .getOrCreate v ft, s => (getVehicleProfile v ft s).2
  | .generate v ft, s => (generateMockEmissionReading v ft s).2
  | .history v ft hb im, s => (generateHistoricalData v ft hb im s).2
  | .reset v, s => resetVehicleProfile v s

/-- SimOp.Resets holds for the operations that delete the profile of a
given vehicle: an explicit reset, or a history backfill for that vehicle
(which resets it internally). -/
def SimOp.Resets (v : ℤ) : SimOp → Prop
  | .history w _ _ _ => w = v
  | .reset w => w = v
  | _ => False

/-- runOps folds a list of operations over a state. -/
def runOps (ops : List SimOp) (s : SimState) : SimState :=
  ops.foldl (fun t op => op.apply t) s

/-- SameCore says two profiles agree on the fields fixed at creation:
trend, volatility and baseline. -/
def SameCore (q p : VehicleProfile) : Prop :=
  q.trend = p.trend ∧ q.volatility = p.volatility ∧ q.baseline = p.baseline

/-- ZeroCarbonProfile is the profile invariant of an electric vehicle:
the co2, co and nox baselines are zero and any stored last reading has
zero co2, co and nox. -/
def ZeroCarbonProfile (p : VehicleProfile) : Prop :=
  p.baseline.co2 = 0 ∧ p.baseline.co = 0 ∧ p.baseline.nox = 0 ∧
  (∀ lr, p.lastReading = some lr → lr.co2 = 0 ∧ lr.co = 0 ∧ lr.nox = 0)

/-- generateMockEmissionReading factors through `generateFrom`. -/
theorem generate_eq_generateFrom (v : ℤ) (ft : String) (s : SimState) :
    generateMockEmissionReading v ft s =
      generateFrom v (getVehicleProfile v ft s).1 (getVehicleProfile v ft s).2 := rfl

/-- getVehicleProfile never changes the draw stream, only its index. -/
theorem getVehicleProfile_rng_seq (v : ℤ) (ft : String) (s : SimState) :
    ((getVehicleProfile v ft s).2).rng.seq = s.rng.seq := by
  rcases h : s.profiles v with _ | p <;> simp [getVehicleProfile, h, Rng.next]

/-- roundTo1 is monotone. -/
theorem roundTo1_mono {x y : ℚ} (h : x ≤ y) : roundTo1 x ≤ roundTo1 y := by
  unfold roundTo1
  have hf : (⌊x * 10 + 1/2⌋ : ℤ) ≤ ⌊y * 10 + 1/2⌋ := Int.floor_le_floor (by linarith)
  have hq : ((⌊x * 10 + 1/2⌋ : ℤ) : ℚ) ≤ ((⌊y * 10 + 1/2⌋ : ℤ) : ℚ) := by exact_mod_cast hf
  linarith

/-- roundTo1 fixes every multiple of one tenth. -/
theorem roundTo1_tenth (k : ℤ) : roundTo1 ((k : ℚ) / 10) = (k : ℚ) / 10 := by
  unfold roundTo1
  have h10 : (k : ℚ) / 10 * 10 + 1/2 = 1/2 + (k : ℚ) := by ring
  rw [h10, Int.floor_add_int]
  norm_num

/-- roundTo1 fixes zero. -/
theorem roundTo1_zero : roundTo1 0 = 0 := by
  have h := roundTo1_tenth 0
  simpa using h

/-- Rounding after clamping stays inside the clamp interval when both
endpoints are multiples of one tenth. -/
theorem roundTo1_clamp_mem {x lo hi : ℚ} (kl kh : ℤ) (hlo : lo = (kl : ℚ) / 10)
    (hhi : hi = (kh : ℚ) / 10) (hle : lo ≤ hi) :
    lo ≤ roundTo1 (max lo (min x hi)) ∧ roundTo1 (max lo (min x hi)) ≤ hi := by
  constructor
  · have h1 : lo ≤ max lo (min x hi) := le_max_left _ _
    calc lo = roundTo1 lo := by rw [hlo, roundTo1_tenth]
    _ ≤ roundTo1 (max lo (min x hi)) := roundTo1_mono h1
  · have h2 : max lo (min x hi) ≤ hi := max_le hle (min_le_right _ _)
    calc roundTo1 (max lo (min x hi)) ≤ roundTo1 hi := roundTo1_mono h2
    _ = hi := by rw [hhi, roundTo1_tenth]

/-- Claim C1: each gas value returned by `generateMockEmissionReading` is
exactly the specification formula: reference (last reading if present,
else baseline) plus `reference * volatility * variation` with the
variation drawn within the per-gas bounds scaled by the shared correlation
factor, the sum multiplied by the trend multiplier, then clamped and
rounded to one decimal place. -/
theorem generate_matches_spec_formula (s : SimState) (v : ℤ) (ft : String) :
    (generateMockEmissionReading v ft s).1 =
      (let p := (getVehicleProfile v ft s).1
       let g := ((getVehicleProfile v ft s).2).rng
       let tm := trendMultiplier p.trend (g.seq g.idx)
       let c := 7/10 + g.seq (g.idx + 1) * (3/10)
       ⟨specGasValue p.baseline.co2 (p.lastReading.map EmissionBaseline.co2)
          p.volatility tm c (2/10) (g.seq (g.idx + 2)),
        specGasValue p.baseline.co (p.lastReading.map EmissionBaseline.co)
          p.volatility tm c (25/100) (g.seq (g.idx + 3)),
        specGasValue p.baseline.nox (p.lastReading.map EmissionBaseline.nox)
          p.volatility tm c (2/10) (g.seq (g.idx + 4)),
        specGasValue p.baseline.pmLevel (p.lastReading.map EmissionBaseline.pmLevel)
          p.volatility tm c (3/10) (g.seq (g.idx + 5))⟩) := rfl

/-- Claim C9: resetting a vehicle removes exactly the profile of that
vehicle: afterwards the vehicle has no profile, the profile of every
other vehicle is unchanged, and resetting an absent vehicle is a no-op on the whole state. -/
theorem reset_removes_only_target (s : SimState) (v w : ℤ) (hw : w ≠ v) :
    (resetVehicleProfile v s).profiles v = none ∧
    (resetVehicleProfile v s).profiles w = s.profiles w ∧
    (s.profiles v = none → resetVehicleProfile v s = s) := by
  refine ⟨by simp [resetVehicleProfile], by simp [resetVehicleProfile, hw], ?_⟩
  intro h
  unfold resetVehicleProfile
  have hupd : Function.update s.profiles v none = s.profiles := by
    rw [← h]
    exact Function.update_eq_self v s.profiles
  rw [hupd]

/-- generateValue lands in the clamp interval of its base value whenever
the base value is a natural number. -/
theorem gasClampOk_generateValue (volatility tm : ℚ) (bv : ℚ)
    (lv : Option ℚ) (mi ma r : ℚ) (n : ℕ) (hbv : bv = (n : ℚ)) :
    gasClampOk bv (generateValue volatility tm bv lv mi ma r) := by
  subst hbv
  constructor
  · intro hn
    have hne : ((n : ℚ)) ≠ 0 := ne_of_gt hn
    have hrw : generateValue volatility tm (n : ℚ) lv mi ma r =
        roundTo1 (max ((n : ℚ) * (2/10))
          (min ((lv.getD (n : ℚ) +
            lv.getD (n : ℚ) * volatility * (mi + r * (ma - mi))) * tm)
            ((n : ℚ) * 2))) := by
      simp [generateValue, hne]
    rw [hrw]
    exact roundTo1_clamp_mem (2 * (n : ℤ)) (20 * (n : ℤ))
      (by push_cast; ring) (by push_cast; ring) (by nlinarith)
  · intro hn
    have hrw : generateValue volatility tm (n : ℚ) lv mi ma r =
        roundTo1 (max 0
          (min ((lv.getD (n : ℚ) +
            lv.getD (n : ℚ) * volatility * (mi + r * (ma - mi))) * tm) 10)) := by
      simp [generateValue, hn]
    rw [hrw]
    have h0 : (0 : ℚ) = ((0 : ℤ) : ℚ) / 10 := by norm_num
    have h10 : (10 : ℚ) = ((100 : ℤ) : ℚ) / 10 := by norm_num
    exact roundTo1_clamp_mem 0 100 h0 h10 (by norm_num)

/-- Rationals with denominator one and nonnegative numerator are casts
of natural numbers. -/
theorem natCast_of_den_one (x : ℚ) (hden : x.den = 1) (hnum : 0 ≤ x.num) :
    ∃ n : ℕ, x = (n : ℚ) := by
  refine ⟨x.num.toNat, ?_⟩
  have h2 : ((x.num : ℤ) : ℚ) = x := (Rat.den_eq_one_iff x).mp hden
  have h1 : ((x.num.toNat : ℕ) : ℚ) = ((x.num : ℤ) : ℚ) := by
    exact_mod_cast Int.toNat_of_nonneg hnum
  rw [h1]
  exact h2.symm

/-- Every baseline in the fuel-type table has natural-number entries. -/
theorem natBaseline_table (t : String) (b : EmissionBaseline)
    (h : EMISSION_BASELINES t = some b) : NatBaseline b := by
  unfold EMISSION_BASELINES at h
  split at h <;>
    first
      | (injection h with h2
         subst h2
         exact ⟨natCast_of_den_one _ (by decide) (by decide),
                natCast_of_den_one _ (by decide) (by decide),
                natCast_of_den_one _ (by decide) (by decide),
                natCast_of_den_one _ (by decide) (by decide)⟩)
      | exact absurd h (by simp)

/-- The fuel-type lookup, fallback included, has natural-number entries. -/
theorem natBaseline_lookupBaseline (ft : String) :
    NatBaseline (lookupBaseline ft) := by
  unfold lookupBaseline
  rcases h : EMISSION_BASELINES (toLowerAscii ft) with _ | b
  · simp only [Option.getD_none]
    exact ⟨natCast_of_den_one _ (by decide) (by decide),
           natCast_of_den_one _ (by decide) (by decide),
           natCast_of_den_one _ (by decide) (by decide),
           natCast_of_den_one _ (by decide) (by decide)⟩
  · simp only [Option.getD_some]
    exact natBaseline_table _ _ h

/-- Claim C2: every generated gas value respects the clamp of its
baseline: in `[baseline*0.2, baseline*2]` when the baseline entry is
strictly positive and in `[0, 10]` when it is zero.  The baseline
entries of the profile are natural numbers, as holds for every profile the
store ever creates. -/
theorem generated_reading_clamped (s : SimState) (v : ℤ) (ft : String)
    (hb : NatBaseline ((getVehicleProfile v ft s).1).baseline) :
    gasClampOk ((getVehicleProfile v ft s).1).baseline.co2
      (generateMockEmissionReading v ft s).1.co2 ∧
    gasClampOk ((getVehicleProfile v ft s).1).baseline.co
      (generateMockEmissionReading v ft s).1.co ∧
    gasClampOk ((getVehicleProfile v ft s).1).baseline.nox
      (generateMockEmissionReading v ft s).1.nox ∧
    gasClampOk ((getVehicleProfile v ft s).1).baseline.pmLevel
      (generateMockEmissionReading v ft s).1.pmLevel := by
  obtain ⟨⟨n1, h1⟩, ⟨n2, h2⟩, ⟨n3, h3⟩, ⟨n4, h4⟩⟩ := hb
  rw [generate_eq_generateFrom]
  simp only [generateFrom]
  exact ⟨gasClampOk_generateValue _ _ _ _ _ _ _ n1 h1,
         gasClampOk_generateValue _ _ _ _ _ _ _ n2 h2,
         gasClampOk_generateValue _ _ _ _ _ _ _ n3 h3,
         gasClampOk_generateValue _ _ _ _ _ _ _ n4 h4⟩

/-- Witness for claim C2 at a concrete fresh state and fuel type. -/
theorem generated_reading_clamped_witness :
    gasClampOk ((getVehicleProfile 1 "petrol" state0).1).baseline.co2
      (generateMockEmissionReading 1 "petrol" state0).1.co2 ∧
    gasClampOk ((getVehicleProfile 1 "petrol" state0).1).baseline.co
      (generateMockEmissionReading 1 "petrol" state0).1.co ∧
    gasClampOk ((getVehicleProfile 1 "petrol" state0).1).baseline.nox
      (generateMockEmissionReading 1 "petrol" state0).1.nox ∧
    gasClampOk ((getVehicleProfile 1 "petrol" state0).1).baseline.pmLevel
      (generateMockEmissionReading 1 "petrol" state0).1.pmLevel :=
  generated_reading_clamped state0 1 "petrol"
    (by
      have h : ((getVehicleProfile 1 "petrol" state0).1).baseline
          = lookupBaseline "petrol" := rfl
      rw [h]
      exact natBaseline_lookupBaseline "petrol")

/-- Witness for claim C9 at a concrete state and vehicle ids. -/
theorem reset_removes_only_target_witness :
    (resetVehicleProfile 1 state0).profiles 1 = none ∧
    (resetVehicleProfile 1 state0).profiles 2 = state0.profiles 2 ∧
    (state0.profiles 1 = none → resetVehicleProfile 1 state0 = state0) :=
  reset_removes_only_target state0 1 2 (by decide)

/-- Counterexample to claim C4: on a fresh store with no profile for
vehicle 1 (hence before any generation call), a single get-or-create
already sets `lastReading` to a copy of the baseline, so the field is
not absent until the first generation call. -/
theorem lastReading_absent_counterexample :
    state0.profiles 1 = none ∧
    ((getVehicleProfile 1 "petrol" state0).1).lastReading
      = some (lookupBaseline "petrol") ∧
    (some (lookupBaseline "petrol") ≠ (none : Option EmissionBaseline)) := by
  refine ⟨rfl, rfl, ?_⟩
  simp

/-- Claim C4 (amended): `lastReading` is present from the moment the
profile is created — initialised to a copy of the baseline — and is
overwritten with the generated reading on every generation call,
whatever the prior state of the store. -/
theorem lastReading_lifecycle (s : SimState) (v : ℤ) (ft : String) :
    (s.profiles v = none →
      ((getVehicleProfile v ft s).1).lastReading
        = some ((getVehicleProfile v ft s).1).baseline) ∧
    ((generateMockEmissionReading v ft s).2).profiles v
      = some { (getVehicleProfile v ft s).1 with
               lastReading := some (generateMockEmissionReading v ft s).1 } := by
  constructor
  · intro hfresh
    simp [getVehicleProfile, hfresh, Rng.next]
  · rw [generate_eq_generateFrom]
    simp only [generateFrom]
    rw [Function.update_same]

/-- Witness for the amended claim C4 at a concrete fresh state. -/
theorem lastReading_lifecycle_witness :
    (state0.profiles 1 = none →
      ((getVehicleProfile 1 "petrol" state0).1).lastReading
        = some ((getVehicleProfile 1 "petrol" state0).1).baseline) ∧
    ((generateMockEmissionReading 1 "petrol" state0).2).profiles 1
      = some { (getVehicleProfile 1 "petrol" state0).1 with
               lastReading := some (generateMockEmissionReading 1 "petrol" state0).1 } :=
  lastReading_lifecycle state0 1 "petrol"

/-- Counterexample to claim C8: the fuel type "constructor" is missing
from the table, yet the bracket lookup of the source resolves to the
truthy member inherited from `Object.prototype`, so the code does not
fall back to the petrol baseline there. -/
theorem fuel_lookup_fallback_counterexample :
    EMISSION_BASELINES (toLowerAscii "constructor") = none ∧
    jsLookupBaseline "constructor" = JsBaselineResult.inheritedObject ∧
    JsBaselineResult.inheritedObject
      ≠ JsBaselineResult.baseline ⟨450, 8, 35, 25⟩ := by decide

/-- Claim C8 (amended): profile creation looks the baseline up
case-insensitively (the lookup depends only on the lowercased fuel
type); for any unrecognised fuel type whose lowercase form is not an
inherited `Object.prototype` key ("constructor", "__proto__") it falls
back silently to the petrol baseline `co2 = 450, co = 8, nox = 35,
pmLevel = 25` and stores that baseline in the created profile. -/
theorem fuel_lookup_fallback (s : SimState) (v : ℤ) (ft : String)
    (hfresh : s.profiles v = none)
    (hproto : protoInherited (toLowerAscii ft) = false) :
    jsLookupBaseline ft
      = JsBaselineResult.baseline ((getVehicleProfile v ft s).1).baseline ∧
    (∀ ft2 : String, toLowerAscii ft = toLowerAscii ft2 →
      jsLookupBaseline ft = jsLookupBaseline ft2) ∧
    (EMISSION_BASELINES (toLowerAscii ft) = none →
      jsLookupBaseline ft = JsBaselineResult.baseline ⟨450, 8, 35, 25⟩) := by
  have hb : ((getVehicleProfile v ft s).1).baseline = lookupBaseline ft := by
    simp [getVehicleProfile, hfresh, Rng.next]
  refine ⟨?_, ?_, ?_⟩
  · rw [hb]
    rcases h : EMISSION_BASELINES (toLowerAscii ft) with _ | b <;>
      simp [jsLookupBaseline, lookupBaseline, h, hproto]
  · intro ft2 h2
    unfold jsLookupBaseline
    rw [h2]
  · intro h
    simp [jsLookupBaseline, h, hproto]

/-- Witness for the amended claim C8 with an unrecognised, mixed-case
fuel type. -/
theorem fuel_lookup_fallback_witness :
    jsLookupBaseline "Unknown"
      = JsBaselineResult.baseline
          ((getVehicleProfile 7 "Unknown" state0).1).baseline ∧
    (∀ ft2 : String, toLowerAscii "Unknown" = toLowerAscii ft2 →
      jsLookupBaseline "Unknown" = jsLookupBaseline ft2) ∧
    (EMISSION_BASELINES (toLowerAscii "Unknown") = none →
      jsLookupBaseline "Unknown" = JsBaselineResult.baseline ⟨450, 8, 35, 25⟩) :=
  fuel_lookup_fallback state0 7 "Unknown" rfl (by decide)

/-- trendMultiplier lands in the per-trend interval of the specification
whenever its draw is a `Math.random()` value. -/
theorem trendMultiplier_mem (t : Trend) {r : ℚ} (h0 : 0 ≤ r) (h1 : r < 1) :
    tmLo t ≤ trendMultiplier t r ∧ trendMultiplier t r ≤ tmHi t := by
  cases t <;>
    (simp only [trendMultiplier, tmLo, tmHi]
     constructor <;> nlinarith)

/-- Claim C6: in every generation call the trend multiplier lies in the
interval fixed by the trend of the profile (stable `[0.95, 1.05]`, increasing
`[1, 1.05]`, decreasing `[0.95, 1]`, volatile `[0.85, 1.15]`), and one
correlation factor in `[0.7, 1)` is drawn once for the call and scales
the variation bounds of all four gases. -/
theorem trend_multiplier_and_shared_correlation (s : SimState) (v : ℤ)
    (ft : String) (hr : s.rng.Valid) :
    ∃ tm c : ℚ,
      tmLo ((getVehicleProfile v ft s).1).trend ≤ tm ∧
      tm ≤ tmHi ((getVehicleProfile v ft s).1).trend ∧
      7/10 ≤ c ∧ c < 1 ∧
      (generateMockEmissionReading v ft s).1 =
        ⟨generateValue ((getVehicleProfile v ft s).1).volatility tm
           ((getVehicleProfile v ft s).1).baseline.co2
           (((getVehicleProfile v ft s).1).lastReading.map EmissionBaseline.co2)
           (-(2/10) * c) ((2/10) * c) (drawAt (getVehicleProfile v ft s).2 2),
         generateValue ((getVehicleProfile v ft s).1).volatility tm
           ((getVehicleProfile v ft s).1).baseline.co
           (((getVehicleProfile v ft s).1).lastReading.map EmissionBaseline.co)
           (-(25/100) * c) ((25/100) * c) (drawAt (getVehicleProfile v ft s).2 3),
         generateValue ((getVehicleProfile v ft s).1).volatility tm
           ((getVehicleProfile v ft s).1).baseline.nox
           (((getVehicleProfile v ft s).1).lastReading.map EmissionBaseline.nox)
           (-(2/10) * c) ((2/10) * c) (drawAt (getVehicleProfile v ft s).2 4),
         generateValue ((getVehicleProfile v ft s).1).volatility tm
           ((getVehicleProfile v ft s).1).baseline.pmLevel
           (((getVehicleProfile v ft s).1).lastReading.map EmissionBaseline.pmLevel)
           (-(3/10) * c) ((3/10) * c) (drawAt (getVehicleProfile v ft s).2 5)⟩ := by
  have hs : ((getVehicleProfile v ft s).2).rng.seq = s.rng.seq :=
    getVehicleProfile_rng_seq v ft s
  have h0 : 0 ≤ drawAt (getVehicleProfile v ft s).2 0 := by
    unfold drawAt
    rw [hs]
    exact (hr _).1
  have h1 : drawAt (getVehicleProfile v ft s).2 0 < 1 := by
    unfold drawAt
    rw [hs]
    exact (hr _).2
  have hc0 : 0 ≤ drawAt (getVehicleProfile v ft s).2 1 := by
    unfold drawAt
    rw [hs]
    exact (hr _).1
  have hc1 : drawAt (getVehicleProfile v ft s).2 1 < 1 := by
    unfold drawAt
    rw [hs]
    exact (hr _).2
  obtain ⟨hl, hh⟩ :=
    trendMultiplier_mem ((getVehicleProfile v ft s).1).trend h0 h1
  refine ⟨trendMultiplier ((getVehicleProfile v ft s).1).trend
            (drawAt (getVehicleProfile v ft s).2 0),
          7/10 + drawAt (getVehicleProfile v ft s).2 1 * (3/10),
          hl, hh, by nlinarith, by nlinarith, rfl⟩

/-- Witness for claim C6 at a concrete state whose draw stream is
constantly one half. -/
theorem trend_multiplier_and_shared_correlation_witness :
    ∃ tm c : ℚ,
      tmLo ((getVehicleProfile 1 "petrol" state0).1).trend ≤ tm ∧
      tm ≤ tmHi ((getVehicleProfile 1 "petrol" state0).1).trend ∧
      7/10 ≤ c ∧ c < 1 ∧
      (generateMockEmissionReading 1 "petrol" state0).1 =
        ⟨generateValue ((getVehicleProfile 1 "petrol" state0).1).volatility tm
           ((getVehicleProfile 1 "petrol" state0).1).baseline.co2
           (((getVehicleProfile 1 "petrol" state0).1).lastReading.map EmissionBaseline.co2)
           (-(2/10) * c) ((2/10) * c) (drawAt (getVehicleProfile 1 "petrol" state0).2 2),
         generateValue ((getVehicleProfile 1 "petrol" state0).1).volatility tm
           ((getVehicleProfile 1 "petrol" state0).1).baseline.co
           (((getVehicleProfile 1 "petrol" state0).1).lastReading.map EmissionBaseline.co)
           (-(25/100) * c) ((25/100) * c) (drawAt (getVehicleProfile 1 "petrol" state0).2 3),
         generateValue ((getVehicleProfile 1 "petrol" state0).1).volatility tm
           ((getVehicleProfile 1 "petrol" state0).1).baseline.nox
           (((getVehicleProfile 1 "petrol" state0).1).lastReading.map EmissionBaseline.nox)
           (-(2/10) * c) ((2/10) * c) (drawAt (getVehicleProfile 1 "petrol" state0).2 4),
         generateValue ((getVehicleProfile 1 "petrol" state0).1).volatility tm
           ((getVehicleProfile 1 "petrol" state0).1).baseline.pmLevel
           (((getVehicleProfile 1 "petrol" state0).1).lastReading.map EmissionBaseline.pmLevel)
           (-(3/10) * c) ((3/10) * c) (drawAt (getVehicleProfile 1 "petrol" state0).2 5)⟩ :=
  trend_multiplier_and_shared_correlation state0 1 "petrol"
    (fun _ => ⟨by norm_num [state0], by norm_num [state0]⟩)

/-- Membership in one embedded threshold check, for a positive
threshold: exactly the entries for a present value strictly above the
threshold. -/
theorem mem_gasAlert_iff (e : AlertEntry) (g : GasType) (v : Option ℚ)
    (thr : ℚ) (hthr : 0 < thr) :
    e ∈ gasAlert g v thr ↔
      ∃ x : ℚ, v = some x ∧ thr < x ∧ e = ⟨g, x, thr⟩ := by
  rcases v with _ | x
  · simp [gasAlert]
  · simp only [gasAlert]
    by_cases hx : thr < x
    · have hcond : x ≠ 0 ∧ thr < x := ⟨ne_of_gt (lt_trans hthr hx), hx⟩
      rw [if_pos hcond]
      simp only [List.mem_singleton]
      constructor
      · intro he
        exact ⟨x, rfl, hx, he⟩
      · rintro ⟨y, hy, hly, he⟩
        injection hy with hyx
        subst hyx
        exact he
    · rw [if_neg (fun hcon => hx hcon.2)]
      constructor
      · intro he
        exact absurd he (List.not_mem_nil e)
      · rintro ⟨y, hy, hly, he⟩
        injection hy with hyx
        subst hyx
        exact absurd hly hx

/-- Claim C3: an alert entry (gas type, measured value, fixed threshold
with co2 = 1000, co = 50, nox = 100, pmLevel = 100) is produced exactly
when the measured value for that gas is present and strictly greater
than its threshold; absent gases are skipped, and every produced entry
carries the input value and the fixed threshold of its gas. -/
theorem alert_entry_iff_threshold_exceeded (a b c d : Option ℚ) :
    (∀ (g : GasType) (x : ℚ),
      (⟨g, x, threshold g⟩ : AlertEntry) ∈ evaluateAlerts a b c d ↔
        gasValue a b c d g = some x ∧ threshold g < x) ∧
    (∀ e ∈ evaluateAlerts a b c d,
      e.thresholdValue = threshold e.gasType ∧
      gasValue a b c d e.gasType = some e.measuredValue ∧
      threshold e.gasType < e.measuredValue) := by
  have m1 := fun e => mem_gasAlert_iff e GasType.co2 a (threshold GasType.co2) (by decide)
  have m2 := fun e => mem_gasAlert_iff e GasType.co b (threshold GasType.co) (by decide)
  have m3 := fun e => mem_gasAlert_iff e GasType.nox c (threshold GasType.nox) (by decide)
  have m4 := fun e => mem_gasAlert_iff e GasType.pm d (threshold GasType.pm) (by decide)
  have hmem : ∀ e : AlertEntry, e ∈ evaluateAlerts a b c d ↔
      ((∃ x : ℚ, a = some x ∧ threshold GasType.co2 < x ∧
          e = ⟨GasType.co2, x, threshold GasType.co2⟩) ∨
       (∃ x : ℚ, b = some x ∧ threshold GasType.co < x ∧
          e = ⟨GasType.co, x, threshold GasType.co⟩) ∨
       (∃ x : ℚ, c = some x ∧ threshold GasType.nox < x ∧
          e = ⟨GasType.nox, x, threshold GasType.nox⟩) ∨
       (∃ x : ℚ, d = some x ∧ threshold GasType.pm < x ∧
          e = ⟨GasType.pm, x, threshold GasType.pm⟩)) := by
    intro e
    unfold evaluateAlerts
    simp only [List.mem_append, m1 e, m2 e, m3 e, m4 e, or_assoc]
  constructor
  · intro g x
    rw [hmem]
    cases g <;> simp [threshold, gasValue, AlertEntry.mk.injEq]
  · intro e he
    rw [hmem] at he
    rcases he with ⟨y, hv, hly, rfl⟩ | ⟨y, hv, hly, rfl⟩ |
      ⟨y, hv, hly, rfl⟩ | ⟨y, hv, hly, rfl⟩ <;> exact ⟨rfl, hv, hly⟩

/-- Witness for claim C3: an ingested reading with co2 above threshold
and the other gases compliant or absent produces exactly the co2 entry. -/
theorem alert_entry_iff_threshold_exceeded_witness :
    (⟨GasType.co2, 1500, threshold GasType.co2⟩ : AlertEntry) ∈
      evaluateAlerts (some 1500) (some 10) none (some 50) :=
  ((alert_entry_iff_threshold_exceeded (some 1500) (some 10) none
    (some 50)).1 GasType.co2 1500).mpr ⟨rfl, by decide⟩

/-- genLoop produces exactly as many readings as it runs iterations. -/
theorem genLoop_length (v : ℤ) (ft : String) (n : ℕ) (s : SimState) :
    (genLoop v ft n s).1.length = n := by
  induction n generalizing s with
  | zero => rfl
  | succ n ih => simp [genLoop, ih]

/-- Deleting the same profile twice equals deleting it once. -/
theorem reset_idem (v : ℤ) (s : SimState) :
    resetVehicleProfile v (resetVehicleProfile v s) = resetVehicleProfile v s := by
  unfold resetVehicleProfile
  simp [Function.update_idem]

/-- Claim C7: the backfill returns exactly
`floor(hoursBack*60/intervalMinutes) + 1` readings, and it resets the
profile of the vehicle before generating, so its output does not depend on
any pre-existing profile of that vehicle. -/
theorem history_length_and_reset (v : ℤ) (ft : String)
    (hoursBack intervalMinutes : ℚ) (s : SimState)
    (hi : 0 < intervalMinutes) (hh : 0 ≤ hoursBack) :
    (generateHistoricalData v ft hoursBack intervalMinutes s).1.length
      = (⌊hoursBack * 60 / intervalMinutes⌋).toNat + 1 ∧
    generateHistoricalData v ft hoursBack intervalMinutes s
      = generateHistoricalData v ft hoursBack intervalMinutes
          (resetVehicleProfile v s) := by
  constructor
  · have h0 : (0:ℤ) ≤ ⌊hoursBack * 60 / intervalMinutes⌋ :=
      Int.floor_nonneg.mpr (div_nonneg (mul_nonneg hh (by norm_num)) hi.le)
    simp only [generateHistoricalData]
    rw [genLoop_length]
    omega
  · simp only [generateHistoricalData]
    rw [reset_idem]

/-- Witness for claim C7: a 24-hour backfill at 5-minute intervals has
289 readings. -/
theorem history_length_and_reset_witness :
    (0:ℚ) < 5 ∧ (0:ℚ) ≤ 24 ∧
    (generateHistoricalData 1 "petrol" 24 5 state0).1.length = 289 := by
  refine ⟨by norm_num, by norm_num, ?_⟩
  have h := history_length_and_reset 1 "petrol" 24 5 state0 (by norm_num) (by norm_num)
  rw [h.1]
  have h288 : (24 * 60 / 5 : ℚ) = ((288 : ℤ) : ℚ) := by norm_num
  rw [h288, Int.floor_intCast]
  rfl

/-- getVehicleProfile on a hit returns the stored profile and leaves the
state unchanged. -/
theorem getVehicleProfile_existing (v : ℤ) (ft : String) (s : SimState)
    (p : VehicleProfile) (h : s.profiles v = some p) :
    getVehicleProfile v ft s = (p, s) := by
  simp [getVehicleProfile, h]

/-- getVehicleProfile on a miss creates the profile from the fuel-type
lookup and two draws. -/
theorem getVehicleProfile_fresh (v : ℤ) (ft : String) (s : SimState)
    (h : s.profiles v = none) :
    (getVehicleProfile v ft s).1 =
      { vehicleId := v, baseline := lookupBaseline ft,
        lastReading := some (lookupBaseline ft),
        trend := trendOfDraw (s.rng.seq s.rng.idx),
        volatility := 1/10 + s.rng.seq (s.rng.idx + 1) * (2/10) } := by
  simp [getVehicleProfile, h, Rng.next]

/-- generateValue returns exactly zero when both the base value and the
reference are zero, whatever the draws, volatility and trend are. -/
theorem generateValue_zero (volatility tm : ℚ) (lv : Option ℚ) (mi ma r : ℚ)
    (h : lv.getD 0 = 0) : generateValue volatility tm 0 lv mi ma r = 0 := by
  simp only [generateValue, h]
  have e1 : ((0:ℚ) + 0 * volatility * (mi + r * (ma - mi))) * tm = 0 := by ring
  rw [e1]
  norm_num
  exact roundTo1_zero

/-- A mapped optional field defaults to zero when every stored value of
the field is zero. -/
theorem getD_map_zero (o : Option EmissionBaseline) (f : EmissionBaseline → ℚ)
    (h : ∀ lr, o = some lr → f lr = 0) : ((o.map f).getD 0) = 0 := by
  rcases o with _ | lr
  · rfl
  · simp [h lr rfl]

/-- One generation step for a zero-carbon fuel type: the produced co2,
co and nox are zero and the zero-carbon profile invariant is preserved. -/
theorem generate_step_zero (s : SimState) (v : ℤ) (ft : String)
    (hzb : (lookupBaseline ft).co2 = 0 ∧ (lookupBaseline ft).co = 0 ∧
      (lookupBaseline ft).nox = 0)
    (hinv : ∀ p, s.profiles v = some p → ZeroCarbonProfile p) :
    ((generateMockEmissionReading v ft s).1.co2 = 0 ∧
     (generateMockEmissionReading v ft s).1.co = 0 ∧
     (generateMockEmissionReading v ft s).1.nox = 0) ∧
    (∀ p, ((generateMockEmissionReading v ft s).2).profiles v = some p →
      ZeroCarbonProfile p) := by
  have hp : ZeroCarbonProfile (getVehicleProfile v ft s).1 := by
    rcases hsv : s.profiles v with _ | q
    · rw [getVehicleProfile_fresh v ft s hsv]
      refine ⟨hzb.1, hzb.2.1, hzb.2.2, ?_⟩
      intro lr hlr
      injection hlr with hlr2
      subst hlr2
      exact ⟨hzb.1, hzb.2.1, hzb.2.2⟩
    · rw [getVehicleProfile_existing v ft s q hsv]
      exact hinv q hsv
  have hz : (generateMockEmissionReading v ft s).1.co2 = 0 ∧
      (generateMockEmissionReading v ft s).1.co = 0 ∧
      (generateMockEmissionReading v ft s).1.nox = 0 := by
    rw [generate_eq_generateFrom]
    simp only [generateFrom]
    refine ⟨?_, ?_, ?_⟩
    · rw [hp.1]
      exact generateValue_zero _ _ _ _ _ _
        (getD_map_zero _ _ (fun lr hlr => (hp.2.2.2 lr hlr).1))
    · rw [hp.2.1]
      exact generateValue_zero _ _ _ _ _ _
        (getD_map_zero _ _ (fun lr hlr => (hp.2.2.2 lr hlr).2.1))
    · rw [hp.2.2.1]
      exact generateValue_zero _ _ _ _ _ _
        (getD_map_zero _ _ (fun lr hlr => (hp.2.2.2 lr hlr).2.2))
  refine ⟨hz, ?_⟩
  intro p hpv
  rw [generate_eq_generateFrom] at hpv
  simp only [generateFrom, Function.update_same] at hpv
  injection hpv with hpv2
  subst hpv2
  refine ⟨hp.1, hp.2.1, hp.2.2.1, ?_⟩
  intro lr hlr
  injection hlr with hlr2
  subst hlr2
  exact hz

/-- Runs of the generation loop for a zero-carbon fuel type only produce
readings with zero co2, co and nox. -/
theorem genLoop_zero (ft : String) (v : ℤ)
    (hzb : (lookupBaseline ft).co2 = 0 ∧ (lookupBaseline ft).co = 0 ∧
      (lookupBaseline ft).nox = 0) (n : ℕ) (s : SimState)
    (hinv : ∀ p, s.profiles v = some p → ZeroCarbonProfile p) :
    ∀ r ∈ (genLoop v ft n s).1, r.co2 = 0 ∧ r.co = 0 ∧ r.nox = 0 := by
  induction n generalizing s with
  | zero =>
      intro r hr
      exact absurd hr (List.not_mem_nil r)
  | succ n ih =>
      intro r hr
      simp only [genLoop] at hr
      rcases List.mem_cons.mp hr with hr1 | hr2
      · subst hr1
        exact (generate_step_zero s v ft hzb hinv).1
      · exact ih _ (generate_step_zero s v ft hzb hinv).2 r hr2

/-- Claim C10: starting from no profile, every reading generated for a
vehicle with fuel type electric has co2, co and nox exactly zero, for
any number of successive generation calls. -/
theorem electric_carbon_gases_zero (s : SimState) (v : ℤ) (n : ℕ)
    (hfresh : s.profiles v = none) :
    ∀ r ∈ (genLoop v "electric" n s).1,
      r.co2 = 0 ∧ r.co = 0 ∧ r.nox = 0 := by
  apply genLoop_zero "electric" v ⟨by decide, by decide, by decide⟩ n s
  intro p hp
  rw [hfresh] at hp
  cases hp

/-- Witness for claim C10: the first generated reading of a fresh
electric vehicle has zero co2, co and nox. -/
theorem electric_carbon_gases_zero_witness :
    (generateMockEmissionReading 2 "electric" state0).1.co2 = 0 ∧
    (generateMockEmissionReading 2 "electric" state0).1.co = 0 ∧
    (generateMockEmissionReading 2 "electric" state0).1.nox = 0 :=
  electric_carbon_gases_zero state0 2 1 rfl
    (generateMockEmissionReading 2 "electric" state0).1
    (List.mem_cons_self _ _)

/-- getVehicleProfile never disturbs the stored profile of another
vehicle, nor the stored profile of the queried vehicle when it exists. -/
theorem getVehicleProfile_preserves (w v : ℤ) (ft : String) (s : SimState)
    (p : VehicleProfile) (h : s.profiles v = some p) :
    ((getVehicleProfile w ft s).2).profiles v = some p := by
  rcases hw : s.profiles w with _ | q
  · by_cases hvw : v = w
    · rw [hvw, hw] at h
      cases h
    · simp [getVehicleProfile, hw, Rng.next, Function.update_noteq hvw, h]
  · simp [getVehicleProfile, hw, h]

/-- After getVehicleProfile the returned profile is stored. -/
theorem getVehicleProfile_stores (v : ℤ) (ft : String) (s : SimState) :
    ((getVehicleProfile v ft s).2).profiles v
      = some (getVehicleProfile v ft s).1 := by
  rcases hsv : s.profiles v with _ | q
  · simp [getVehicleProfile, hsv, Rng.next, Function.update_same]
  · simp [getVehicleProfile, hsv]

/-- One generation call preserves the creation-time fields (trend,
volatility, baseline) of every stored profile. -/
theorem generate_preserves_core (w v : ℤ) (ft : String) (s : SimState)
    (p : VehicleProfile) (h : s.profiles v = some p) :
    ∃ q, ((generateMockEmissionReading w ft s).2).profiles v = some q ∧
      SameCore q p := by
  rw [generate_eq_generateFrom]
  by_cases hvw : v = w
  · subst hvw
    rw [getVehicleProfile_existing v ft s p h]
    exact ⟨{ p with lastReading := some (generateFrom v p s).1 },
           by simp [generateFrom], ⟨rfl, rfl, rfl⟩⟩
  · have h2 : ((getVehicleProfile w ft s).2).profiles v = some p :=
      getVehicleProfile_preserves w v ft s p h
    refine ⟨p, ?_, rfl, rfl, rfl⟩
    have h3 : ((generateFrom w (getVehicleProfile w ft s).1
        (getVehicleProfile w ft s).2).2).profiles v
        = ((getVehicleProfile w ft s).2).profiles v := by
      simp [generateFrom, Function.update_noteq hvw]
    rw [h3, h2]

/-- The generation loop preserves the creation-time fields of every
stored profile. -/
theorem genLoop_preserves_core (w : ℤ) (ft : String) (n : ℕ) (v : ℤ)
    (s : SimState) (p : VehicleProfile) (h : s.profiles v = some p) :
    ∃ q, ((genLoop w ft n s).2).profiles v = some q ∧ SameCore q p := by
  induction n generalizing s p with
  | zero => exact ⟨p, h, rfl, rfl, rfl⟩
  | succ n ih =>
      obtain ⟨q, hq, hcore⟩ := generate_preserves_core w v ft s p h
      obtain ⟨q2, hq2, hcore2⟩ := ih _ q hq
      refine ⟨q2, ?_, hcore2.1.trans hcore.1, hcore2.2.1.trans hcore.2.1,
        hcore2.2.2.trans hcore.2.2⟩
      simpa [genLoop] using hq2

/-- Every operation that does not reset a vehicle preserves the
creation-time fields of the stored profile of that vehicle. -/
theorem apply_preserves_core (op : SimOp) (v : ℤ) (s : SimState)
    (p : VehicleProfile) (hop : ¬ op.Resets v) (h : s.profiles v = some p) :
    ∃ q, (op.apply s).profiles v = some q ∧ SameCore q p := by
  cases op with
  | getOrCreate w ft =>
      exact ⟨p, getVehicleProfile_preserves w v ft s p h, rfl, rfl, rfl⟩
  | generate w ft => exact generate_preserves_core w v ft s p h
  | history w ft hb im =>
      have hvw : v ≠ w := by
        intro hh
        exact hop (by simp [SimOp.Resets, hh])
      have h0 : (resetVehicleProfile w s).profiles v = some p := by
        simp only [resetVehicleProfile]
        rw [Function.update_noteq hvw]
        exact h
      have h1 : ((getVehicleProfile w ft (resetVehicleProfile w s)).2).profiles v
          = some p := getVehicleProfile_preserves w v ft _ p h0
      exact genLoop_preserves_core w ft _ v _ p h1
  | reset w =>
      have hvw : v ≠ w := by
        intro hh
        exact hop (by simp [SimOp.Resets, hh])
      refine ⟨p, ?_, rfl, rfl, rfl⟩
      simp only [SimOp.apply, resetVehicleProfile]
      rw [Function.update_noteq hvw]
      exact h

/-- Running any sequence of operations that never resets a vehicle
preserves the creation-time fields of the stored profile of that vehicle. -/
theorem runOps_preserves_core (ops : List SimOp) (v : ℤ) (s : SimState)
    (p : VehicleProfile) (hops : ∀ op ∈ ops, ¬ op.Resets v)
    (h : s.profiles v = some p) :
    ∃ q, (runOps ops s).profiles v = some q ∧ SameCore q p := by
  induction ops generalizing s p with
  | nil => exact ⟨p, h, rfl, rfl, rfl⟩
  | cons op ops ih =>
      obtain ⟨q, hq, hcore⟩ :=
        apply_preserves_core op v s p (hops op (by simp)) h
      obtain ⟨q2, hq2, hcore2⟩ :=
        ih (op.apply s) q (fun o ho => hops o (List.mem_cons_of_mem op ho)) hq
      refine ⟨q2, ?_, hcore2.1.trans hcore.1, hcore2.2.1.trans hcore.2.1,
        hcore2.2.2.trans hcore.2.2⟩
      simpa [runOps] using hq2

/-- Claim C5: the profile returned by a later get-or-create for a
vehicle, after any sequence of operations that never resets that
vehicle, has the same trend, volatility and baseline as the profile
returned by the first get-or-create — the random choices are made once,
at creation. -/
theorem profile_core_stable (s : SimState) (v : ℤ) (ft ft2 : String)
    (ops : List SimOp) (hops : ∀ op ∈ ops, ¬ op.Resets v) :
    SameCore
      ((getVehicleProfile v ft2 (runOps ops (getVehicleProfile v ft s).2)).1)
      ((getVehicleProfile v ft s).1) := by
  obtain ⟨q, hq, hcore⟩ := runOps_preserves_core ops v _ _ hops
    (getVehicleProfile_stores v ft s)
  have h2 := getVehicleProfile_existing v ft2
    (runOps ops (getVehicleProfile v ft s).2) q hq
  rw [h2]
  exact hcore

/-- Witness for claim C5: two get-or-create calls separated by a
generation for the same vehicle, a reset of another vehicle and a
get-or-create of a third vehicle. -/
theorem profile_core_stable_witness :
    SameCore
      ((getVehicleProfile 1 "diesel"
        (runOps [SimOp.generate 1 "petrol", SimOp.reset 2,
                 SimOp.getOrCreate 3 "cng"]
          (getVehicleProfile 1 "petrol" state0).2)).1)
      ((getVehicleProfile 1 "petrol" state0).1) := by
  apply profile_core_stable
  intro op hop
  simp only [List.mem_cons, List.not_mem_nil, or_false] at hop
  rcases hop with rfl | rfl | rfl <;> norm_num [SimOp.Resets]

end NSEA
